import Mathlib

/-!
Verification of the submission ingestion pipeline of a multi-tenant
form-intake gateway (Flask application: `app.py`, `utils.py`, `models.py`,
`email_service.py`, `config.py`).

Strings are modelled as `List Char`.  Machine-level details that the
pipeline treats as opaque collaborators (werkzeug's `secure_filename`,
the floating-point file-size formatter, the random hex-token source and
the clock) are supplied as parameters of an environment record.
-/

set_option maxRecDepth 4096

/-- The NUL character removed by the sanitizer (`'\x00'` in `utils.py`). -/
def NULC : Char := Char.ofNat 0

/-- Whitespace stripped by Python's `str.strip()` (space, tab, LF, CR,
vertical tab, form feed). -/
def isPySpace (c : Char) : Bool :=
  c = ' ' || c = '\t' || c = '\n' || c = '\r' || c = Char.ofNat 11 || c = Char.ofNat 12

/-- `value.replace('\x00', '')` from `utils.sanitize_form_data`: delete
every NUL byte. -/
def removeNul (v : List Char) : List Char :=
  v.filter (fun c => c ≠ NULC)

/-- Python `str.strip()`: drop leading and trailing whitespace. -/
def pyStrip (v : List Char) : List Char :=
  (((v.dropWhile isPySpace).reverse.dropWhile isPySpace)).reverse

/-- The per-value work of `utils.sanitize_form_data` (`utils.py` 158-175):
`value.replace('\x00', '').strip()` followed by `value[:10000]`. -/
def sanitizeValue (v : List Char) : List Char :=
  (pyStrip (removeNul v)).take 10000

/-- `utils.sanitize_form_data`: sanitize each value, keep each key.
(Form values arriving from `request.form.to_dict()` are always strings,
so the `isinstance(value, str)` guard in the source is always taken.) -/
def sanitize_form_data (data : List (List Char × List Char)) :
    List (List Char × List Char) :=
  data.map (fun kv => (kv.1, sanitizeValue kv.2))

/-- Lower-case a string character-wise (Python `str.lower()` on ASCII). -/
def lowerStr (s : List Char) : List Char :=
  s.map Char.toLower

/-- The part of `filename` after its last `'.'`
(`filename.rsplit('.', 1)[1]`). -/
def extAfterLastDot (s : List Char) : List Char :=
  (s.reverse.takeWhile (fun c => c ≠ '.')).reverse

/-- `utils.allowed_file` (`utils.py` 31-43):
`'.' in filename and filename.rsplit('.', 1)[1].lower() in allowed_extensions`. -/
def allowed_file (filename : List Char) (allowed_extensions : List (List Char)) : Bool :=
  filename.contains '.' && allowed_extensions.contains (lowerStr (extAfterLastDot filename))

/-! ## Data model (`models.py`) -/

/-- `models.ApiKey`: the tenant credential row (fields used by the
ingestion pipeline; timestamps are abstract instants). -/
structure ApiKey where
  id : Nat
  key : List Char
  name : List Char
  recipient_email : List Char
  is_active : Bool
  usage_count : Nat
  last_used : Option Nat
deriving DecidableEq, Repr

/-- `ApiKey.increment_usage` (`models.py` 70-73):
`self.usage_count += 1; self.last_used = datetime.utcnow()`. -/
def ApiKey.increment_usage (k : ApiKey) (now : Nat) : ApiKey :=
  { k with usage_count := k.usage_count + 1, last_used := some now }

/-- `models.FormSubmission`: one accepted form-data event. -/
structure FormSubmission where
  id : Nat
  api_key_id : Nat
  data : List (List Char × List Char)
  ip_address : List Char
  user_agent : List Char
  email_sent : Bool
  email_error : Option (List Char)
deriving DecidableEq, Repr

/-- `models.FileUpload`: stored-attachment metadata. -/
structure FileUpload where
  submission_id : Nat
  original_filename : List Char
  stored_filename : List Char
  file_path : List Char
  file_size : Nat
  mime_type : List Char
deriving DecidableEq, Repr

/-- The persistent state the pipeline touches: the three relational
tables plus the set of directory entries created under the upload root
(`stored_files` holds full storage paths).  Uncommitted session changes
never reach a `DB` value; files written to disk do, even when the
request later aborts. -/
structure DB where
  api_keys : List ApiKey
  submissions : List FormSubmission
  file_uploads : List FileUpload
  stored_files : List (List Char)
deriving DecidableEq, Repr

/-! ## Requests and environment -/

/-- One uploaded file part (`request.files[field_name]`), in the order
the multipart fields iterate. -/
structure FilePart where
  filename : List Char
  size : Nat
  content_type : List Char
deriving DecidableEq, Repr

/-- An inbound `POST /api/v1/submit/<api_key>` request. -/
structure Request where
  api_key : List Char
  form : List (List Char × List Char)
  files : List FilePart
  ip : List Char
  user_agent : List Char
deriving DecidableEq, Repr

/-- Outcome of one call into an outbound mail transport
(`resend.Emails.send` or the SMTP session): success, or an exception
carrying `str(e)`. -/
inductive TransportResult where
  | ok : TransportResult
  | exnRaised : List Char → TransportResult
deriving DecidableEq, Repr

/-- The two outbound notification transports of `EmailService`. -/
inductive Transport where
  | resendApi : Transport
  | smtp : Transport
deriving DecidableEq, Repr

/-- The ambient collaborators of one request: the clock
(`datetime.utcnow()` and its two formattings), the stream of
`secrets.token_hex(8)` draws consumed by successive file saves,
werkzeug's `secure_filename`, and the behaviour of the two mail
transports on this request's send. -/
structure Env where
  now : Nat
  timestamp : List Char
  dateFolder : List Char
  tokens : Nat → List Char
  secure : List Char → List Char
  resendResult : TransportResult
  smtpResult : TransportResult

/-- Configuration consumed by the pipeline (`config.py`). -/
structure AppConfig where
  allowed_extensions : List (List Char)
  upload_folder : List Char
  resend_api_key : List Char
  app_url : List Char
deriving Repr

/-! ## Attachment store (`utils.save_uploaded_file`, lines 46-77) -/

/-- The server-generated storage filename of the `i`-th saved file of a
request: `f"{timestamp}_{secrets.token_hex(8)}_{name}{ext}"` where
`name, ext = os.path.splitext(secure_filename(file.filename))` — note
`name ++ ext` is exactly `secure_filename(file.filename)` again, so the
`splitext` round-trip is the identity on the concatenation. -/
def storedFilename (env : Env) (i : Nat) (original : List Char) : List Char :=
  env.timestamp ++ '_' :: env.tokens i ++ '_' :: env.secure original

/-- The target directory `upload_folder/api_key_id/YYYY-MM` of
`save_uploaded_file`. -/
def uploadDir (cfg : AppConfig) (env : Env) (apiKeyId : Nat) : List Char :=
  cfg.upload_folder ++ '/' :: Nat.toDigits 10 apiKeyId ++ '/' :: env.dateFolder

/-- `utils.save_uploaded_file`: returns
`(stored_filename, file_path, file_size)`; `i` indexes this request's
`token_hex` draw.  The byte size written is the part's actual size
(`os.path.getsize` after `file.save`). -/
def save_uploaded_file (cfg : AppConfig) (env : Env) (apiKeyId : Nat)
    (i : Nat) (f : FilePart) : List Char × List Char × Nat :=
  let stored := storedFilename env i f.filename
  (stored, uploadDir cfg env apiKeyId ++ '/' :: stored, f.size)

/-- A `FileUpload` row staged in the session during the file loop, before
the submission id is attached at commit. -/
structure StagedUpload where
  original_filename : List Char
  stored_filename : List Char
  file_path : List Char
  file_size : Nat
  mime_type : List Char
deriving DecidableEq, Repr

/-- Result of the file loop of `submit_form` (`app.py` 114-149):
either a disallowed extension was hit — carrying the storage paths
already written to disk before the offending part and the offending
client filename — or every part was handled, carrying the written paths
and the staged rows in order. -/
inductive FilesOutcome where
  | badExt : List (List Char) → List Char → FilesOutcome
  | done : List (List Char) → List StagedUpload → FilesOutcome
deriving DecidableEq, Repr

/-- The file loop of `submit_form` (`app.py` 116-149): skip parts with a
falsy filename; otherwise check `allowed_file` and return the 400 error
before saving the offending part; otherwise save the file (consuming one
token draw) and stage a `FileUpload` row. -/
def processFiles (cfg : AppConfig) (env : Env) (apiKeyId : Nat) :
    List FilePart → Nat → FilesOutcome
  | [], _ => .done [] []
  | f :: rest, i =>
    if f.filename = [] then processFiles cfg env apiKeyId rest i
    else if !allowed_file f.filename cfg.allowed_extensions then .badExt [] f.filename
    else
      let s := save_uploaded_file cfg env apiKeyId i f
      match processFiles cfg env apiKeyId rest (i + 1) with
      | .badExt written off => .badExt (s.2.1 :: written) off
      | .done written staged =>
          .done (s.2.1 :: written)
            (⟨f.filename, s.1, s.2.1, s.2.2, f.content_type⟩ :: staged)

/-! ## Notification dispatcher (`email_service.py`) -/

/-- `EmailService._send_via_resend` (lines 99-144), restricted to its
outcome: success returns `(True, None)`; any exception is caught and
reported as `(False, 'Resend error: ' + str(e))`.  (The warm-up probe
never affects the outcome: its failure is logged and swallowed.) -/
def sendViaResend (r : TransportResult) : Bool × Option (List Char) :=
  match r with
  | .ok => (true, none)
  | .exnRaised m => (false, some ("Resend error: ".data ++ m))

/-- `EmailService._send_via_smtp` (lines 146-182): success returns
`(True, None)`; any exception is caught and reported as
`(False, 'Failed to send email: ' + str(e))`. -/
def sendViaSmtp (r : TransportResult) : Bool × Option (List Char) :=
  match r with
  | .ok => (true, none)
  | .exnRaised m => (false, some ("Failed to send email: ".data ++ m))

/-- `EmailService.send_submission_notification` (lines 55-80): if the
Resend API key is truthy (non-empty) use the Resend transport, else the
SMTP transport; also records which transports were invoked on this call.
Each branch delegates to a method whose whole body already catches every
exception and returns a structured pair, so the outer `except` of the
dispatcher is unreachable and the dispatcher itself never raises. -/
def send_submission_notification (resend_api_key : List Char) (env : Env) :
    (Bool × Option (List Char)) × List Transport :=
  if resend_api_key.isEmpty then (sendViaSmtp env.smtpResult, [Transport.smtp])
  else (sendViaResend env.resendResult, [Transport.resendApi])

/-! ## The ingestion endpoint (`app.py submit_form`, lines 73-184) -/

/-- An HTTP response of the endpoint: an error envelope with status and
message, or the 201 success envelope carrying the new submission id. -/
inductive Response where
  | err : Nat → List Char → Response
  | created : Nat → Response
deriving DecidableEq, Repr

/-- `submit_form`: the ingestion endpoint as a state transformer on the
persistent state.  The returned `DB` is the state after the request
finishes: on abort paths the staged session rows are discarded
(no commit ran), but storage paths already written by the file loop
remain in `stored_files`. -/
def submit_form (cfg : AppConfig) (env : Env) (db : DB) (req : Request) :
    Response × DB :=
  match db.api_keys.find? (fun k => k.key = req.api_key && k.is_active) with
  | none => (.err 401 "Invalid or inactive API key".data, db)
  | some keyObj =>
    if req.form.isEmpty then (.err 400 "No form data provided".data, db)
    else
      let data := sanitize_form_data req.form
      let subId := db.submissions.length + 1
      match processFiles cfg env keyObj.id req.files 0 with
      | .badExt written off =>
          (.err 400 ("File type not allowed: ".data ++ off),
           { db with stored_files := db.stored_files ++ written })
      | .done written staged =>
          let outcome := (send_submission_notification cfg.resend_api_key env).1
          let submission : FormSubmission :=
            { id := subId
              api_key_id := keyObj.id
              data := data
              ip_address := req.ip
              user_agent := req.user_agent.take 255
              email_sent := outcome.1
              email_error := if outcome.1 then none else outcome.2 }
          let keyObj' := keyObj.increment_usage env.now
          (.created subId,
           { api_keys := db.api_keys.map (fun k => if k.id = keyObj.id then keyObj' else k)
             submissions := db.submissions ++ [submission]
             file_uploads := db.file_uploads ++ staged.map (fun s =>
               { submission_id := subId
                 original_filename := s.original_filename
                 stored_filename := s.stored_filename
                 file_path := s.file_path
                 file_size := s.file_size
                 mime_type := s.mime_type })
             stored_files := db.stored_files ++ written })

/-! ## Notification rendering (`EmailService._create_html_body`, lines
184-308, and `_create_text_body`, lines 310-329).

The body builders read `original_filename` and `file_size` off each
attachment descriptor; the floating-point size formatter
`_format_file_size` is passed in as an abstract rendering function. -/

/-- An attachment descriptor as consumed by the body builders. -/
structure AttachmentDesc where
  original_filename : List Char
  file_size : Nat
deriving DecidableEq, Repr

/-- The literal document head of the HTML body, up to the interpolation
of the tenant display name (`From: {api_key_name}`). -/
def htmlDocPre : String :=
"
        <!DOCTYPE html>
        <html>
        <head>
            <style>
                body \x7b
                    font-family: -apple-system, BlinkMacSystemFont, \x27Segoe UI\x27, Roboto, \x27Helvetica Neue\x27, Arial, sans-serif;
                    line-height: 1.6;
                    color: #333;
                    max-width: 600px;
                    margin: 0 auto;
                    padding: 20px;
                \x7d
                .header \x7b
                    background: linear-gradient(135deg, #667eea 0%, #764ba2 100%);
                    color: white;
                    padding: 30px;
                    border-radius: 10px 10px 0 0;
                    text-align: center;
                \x7d
                .header h1 \x7b
                    margin: 0;
                    font-size: 24px;
                \x7d
                .content \x7b
                    background: #f8f9fa;
                    padding: 30px;
                    border-radius: 0 0 10px 10px;
                \x7d
                .field \x7b
                    background: white;
                    padding: 15px;
                    margin-bottom: 15px;
                    border-radius: 5px;
                    border-left: 4px solid #667eea;
                \x7d
                .field-label \x7b
                    font-weight: 600;
                    color: #667eea;
                    font-size: 12px;
                    text-transform: uppercase;
                    margin-bottom: 5px;
                \x7d
                .field-value \x7b
                    color: #333;
                    font-size: 14px;
                    word-wrap: break-word;
                \x7d
                .files \x7b
                    margin-top: 20px;
                \x7d
                .file-item \x7b
                    background: white;
                    padding: 10px 15px;
                    margin-bottom: 10px;
                    border-radius: 5px;
                    display: flex;
                    align-items: center;
                \x7d
                .file-icon \x7b
                    margin-right: 10px;
                    font-size: 20px;
                \x7d
                .footer \x7b
                    text-align: center;
                    margin-top: 30px;
                    padding-top: 20px;
                    border-top: 1px solid #ddd;
                    color: #666;
                    font-size: 12px;
                \x7d
            </style>
        </head>
        <body>
            <div class=\"header\">
                <h1>📧 New Form Submission</h1>
                <p style=\"margin: 10px 0 0 0; opacity: 0.9;\">From: "

/-- From after the tenant name to just before the per-field loop. -/
def htmlDocMid : String :=
"</p>
            </div>
            <div class=\"content\">
        "

/-- Literal text before a field key in the HTML field block. -/
def htmlFieldPre : String :=
"
                <div class=\"field\">
                    <div class=\"field-label\">"

/-- Literal text between the field key and the field value. -/
def htmlFieldMid : String :=
"</div>
                    <div class=\"field-value\">"

/-- Literal text after the field value. -/
def htmlFieldPost : String :=
"</div>
                </div>
            "

/-- One form field rendered into the HTML body
(`html += f'... {key} ... {value} ...'`). -/
def htmlField (kv : List Char × List Char) : List Char :=
  htmlFieldPre.data ++ kv.1 ++ htmlFieldMid.data ++ kv.2 ++ htmlFieldPost.data

/-- Literal header of the attached-files HTML section. -/
def htmlFilesHead : String :=
"
                <div class=\"files\">
                    <h3 style=\"color: #667eea; margin-bottom: 15px;\">📎 Attached Files</h3>
            "

/-- One attachment rendered into the HTML body. -/
def htmlFileItem (fmtSize : Nat → List Char) (a : AttachmentDesc) : List Char :=
  "
                    <div class=\"file-item\">
                        <span class=\"file-icon\">📄</span>
                        <div>
                            <strong>".data
    ++ a.original_filename ++
"</strong>
                            <div style=\"font-size: 12px; color: #666;\">
                                ".data
    ++ fmtSize a.file_size ++
"
                            </div>
                        </div>
                    </div>
                ".data

/-- Literal footer of the HTML body, up to the dashboard link target. -/
def htmlFooterPre : String :=
"
            </div>
            <div class=\"footer\">
                <p>This email was sent from your Form Service API</p>
                <p><a href=\""

/-- Literal end of the HTML body after the dashboard link target. -/
def htmlFooterPost : String :=
"\" style=\"color: #667eea;\">View Dashboard</a></p>
            </div>
        </body>
        </html>
        "

/-- `EmailService._create_html_body`. -/
def create_html_body (api_key_name : List Char)
    (form_data : List (List Char × List Char)) (files : List AttachmentDesc)
    (app_url : List Char) (fmtSize : Nat → List Char) : List Char :=
  htmlDocPre.data ++ api_key_name ++ htmlDocMid.data
    ++ (form_data.map htmlField).flatten
    ++ (if files.isEmpty then []
        else htmlFilesHead.data ++ (files.map (htmlFileItem fmtSize)).flatten
          ++ "</div>".data)
    ++ htmlFooterPre.data ++ app_url ++ htmlFooterPost.data

/-- The 50-dash separator `'-' * 50` of the plain-text body. -/
def dashes50 : List Char := List.replicate 50 '-'

/-- One form field rendered into the plain-text body
(`text += f'{key}:\n{value}\n\n'`). -/
def textField (kv : List Char × List Char) : List Char :=
  kv.1 ++ ":\n".data ++ kv.2 ++ "\n\n".data

/-- One attachment rendered into the plain-text body. -/
def textFileItem (fmtSize : Nat → List Char) (a : AttachmentDesc) : List Char :=
  "- ".data ++ a.original_filename ++ " (".data ++ fmtSize a.file_size ++ ")\n".data

/-- `EmailService._create_text_body`. -/
def create_text_body (api_key_name : List Char)
    (form_data : List (List Char × List Char)) (files : List AttachmentDesc)
    (app_url : List Char) (fmtSize : Nat → List Char) : List Char :=
  "New Form Submission\n".data
    ++ "From: ".data ++ api_key_name ++ "\n".data
    ++ dashes50 ++ "\n\n".data
    ++ (form_data.map textField).flatten
    ++ (if files.isEmpty then []
        else "\nAttached Files (".data ++ Nat.toDigits 10 files.length ++ "):\n".data
          ++ (files.map (textFileItem fmtSize)).flatten)
    ++ "\n".data ++ dashes50 ++ "\n".data
    ++ "View dashboard: ".data ++ app_url ++ "\n".data

/-! ## Credential-row session phases (`app.py` lines 90 and 167-171)

SQLAlchemy loads the credential row once, at validation
(`ApiKey.query.filter_by(...).first()`, line 90); `increment_usage`
mutates that in-memory object (line 168); `db.session.commit()`
(line 171) writes the object's state back to the row.  The two phases
are separated in time, so two overlapping requests can both load the
row before either commits. -/

/-- The credential read phase of a request (`app.py` line 90). -/
def readKeyPhase (db : DB) (api_key : List Char) : Option ApiKey :=
  db.api_keys.find? (fun k => k.key = api_key && k.is_active)

/-- The commit phase: write the session's in-memory credential object
back over its row (`db.session.commit()`, line 171). -/
def commitKeyPhase (db : DB) (staged : ApiKey) : DB :=
  { db with api_keys := db.api_keys.map (fun k => if k.id = staged.id then staged else k) }

/-- Two accepted submissions against the same credential whose sessions
overlap: both requests load the row from `db` before either commits;
each then commits its own in-memory increment. -/
def interleavedPair (db : DB) (api_key : List Char) (t1 t2 : Nat) : DB :=
  match readKeyPhase db api_key with
  | none => db
  | some k0 =>
    let db1 := commitKeyPhase db (k0.increment_usage t1)
    commitKeyPhase db1 (k0.increment_usage t2)

/-- `m` submissions of the same request run strictly one after another
(each request's session reads the state the previous one committed);
`envs j` supplies the ambient collaborators of run `j`. -/
def serialSubmits (cfg : AppConfig) (envs : Nat → Env) (req : Request) :
    Nat → DB → DB
  | 0, db => db
  | m + 1, db => serialSubmits cfg envs req m (submit_form cfg (envs m) db req).2

/-- The `token_hex` draws a request consumes for its first `n` saves. -/
def drawnTokens (env : Env) (n : Nat) : List (List Char) :=
  (List.range n).map env.tokens

/-- The number of file parts the loop writes to disk before it meets the
first part with a disallowed extension: non-empty-filename parts in the
longest prefix of parts that are each skipped or allowed. -/
def goodPrefixCount (allowed_extensions : List (List Char)) (files : List FilePart) : Nat :=
  ((files.takeWhile (fun f => f.filename.isEmpty || allowed_file f.filename allowed_extensions)).filter
    (fun f => !f.filename.isEmpty)).length

/-- The value used by the C5 counterexample: 9999 letters followed by a
space and a letter (length 10001, no leading or trailing whitespace). -/
def c5Value : List Char := List.replicate 9999 'x' ++ [' ', 'a']

/-! ## Concrete fixtures used by witnesses and counterexamples -/

/-- A deployed configuration: pdf/txt allowed, Resend key configured. -/
def cfg0 : AppConfig :=
  { allowed_extensions := ["pdf".data, "txt".data]
    upload_folder := "/tmp/uploads".data
    resend_api_key := "re_abc".data
    app_url := "http://localhost:5000".data }

/-- An active tenant credential. -/
def key0 : ApiKey :=
  { id := 1
    key := "K123".data
    name := "Acme".data
    recipient_email := "owner@acme.test".data
    is_active := true
    usage_count := 7
    last_used := none }

/-- A database holding just the one active credential. -/
def db0 : DB :=
  { api_keys := [key0], submissions := [], file_uploads := [], stored_files := [] }

/-- A concrete environment: the `i`-th `token_hex(8)` draw is 15 fixed
hex digits followed by the digit of `i` (length 16, distinct for
`i < 10`); `secure_filename` is the identity on these tame names. -/
def mkEnv (r s : TransportResult) : Env :=
  { now := 100
    timestamp := "20260101_000000".data
    dateFolder := "2026-01".data
    tokens := fun i => "0123456789abcde".data ++ [Char.ofNat (48 + i)]
    secure := fun n => n
    resendResult := r
    smtpResult := s }

/-! # Theorems -/

/-! ## Sanitizer lemmas -/

theorem dropWhile_head_false {α : Type} {p : α → Bool} :
    ∀ {l : List α} {a : α} {t : List α}, l.dropWhile p = a :: t → p a = false := by
  intro l
  induction l with
  | nil => intro a t h; simp at h
  | cons b l ih =>
    intro a t h
    rw [List.dropWhile_cons] at h
    by_cases hb : p b
    · simp [hb] at h
      exact ih h
    · simp [hb] at h
      rw [← h.1]
      exact Bool.of_not_eq_true hb

theorem pyStrip_head?_not_space {v : List Char} {c : Char}
    (h : (pyStrip v).head? = some c) : isPySpace c = false := by
  unfold pyStrip at h
  set x := v.dropWhile isPySpace with hx
  set L := x.reverse.dropWhile isPySpace with hL
  rw [List.head?_reverse] at h
  obtain ⟨u, hu⟩ := List.dropWhile_suffix (l := x.reverse) isPySpace
  rw [← hL] at hu
  have hgx : x.reverse.getLast? = some c := by
    rw [← hu, List.getLast?_append, h]; rfl
  rw [List.getLast?_reverse] at hgx
  obtain ⟨t, ht⟩ := List.head?_eq_some_iff.mp hgx
  exact dropWhile_head_false (hx ▸ ht)

theorem pyStrip_getLast?_not_space {v : List Char} {c : Char}
    (h : (pyStrip v).getLast? = some c) : isPySpace c = false := by
  unfold pyStrip at h
  rw [List.getLast?_reverse] at h
  obtain ⟨t, ht⟩ := List.head?_eq_some_iff.mp h
  exact dropWhile_head_false ht

theorem pyStrip_sublist (v : List Char) : List.Sublist (pyStrip v) v := by
  unfold pyStrip
  have h1 : List.Sublist ((v.dropWhile isPySpace).reverse.dropWhile isPySpace)
      (v.dropWhile isPySpace).reverse :=
    List.dropWhile_sublist _
  have h2 := h1.reverse
  rw [List.reverse_reverse] at h2
  exact h2.trans (List.dropWhile_sublist _)

theorem sanitizeValue_length_le (v : List Char) : (sanitizeValue v).length ≤ 10000 := by
  unfold sanitizeValue
  rw [List.length_take]
  exact Nat.min_le_left _ _

theorem sanitizeValue_no_nul {v : List Char} {c : Char}
    (h : c ∈ sanitizeValue v) : c ≠ NULC := by
  unfold sanitizeValue at h
  have h1 : c ∈ pyStrip (removeNul v) := List.take_subset _ _ h
  have h2 : c ∈ removeNul v := (pyStrip_sublist _).subset h1
  unfold removeNul at h2
  have := (List.mem_filter.mp h2).2
  simpa using this

theorem head?_take_eq_some {α : Type} {n : Nat} {l : List α} {c : α}
    (h : (l.take n).head? = some c) : l.head? = some c := by
  cases n with
  | zero => simp at h
  | succ m => cases l with
    | nil => simp at h
    | cons a t => simpa using h

theorem sanitizeValue_head?_not_space {v : List Char} {c : Char}
    (h : (sanitizeValue v).head? = some c) : isPySpace c = false :=
  pyStrip_head?_not_space (head?_take_eq_some h)

theorem sanitizeValue_getLast?_not_space {v : List Char} {c : Char}
    (hlen : (sanitizeValue v).length < 10000)
    (h : (sanitizeValue v).getLast? = some c) : isPySpace c = false := by
  have hm : (pyStrip (removeNul v)).length < 10000 := by
    unfold sanitizeValue at hlen
    rw [List.length_take] at hlen
    rcases Nat.lt_or_ge (pyStrip (removeNul v)).length 10000 with h' | h'
    · exact h'
    · rw [Nat.min_eq_left h'] at hlen; omega
  have heq : sanitizeValue v = pyStrip (removeNul v) := by
    unfold sanitizeValue
    exact List.take_of_length_le (Nat.le_of_lt hm)
  rw [heq] at h
  exact pyStrip_getLast?_not_space h

theorem removeNul_c5 : removeNul c5Value = c5Value := by
  unfold removeNul c5Value
  rw [List.filter_eq_self]
  intro a ha
  rcases List.mem_append.mp ha with h | h
  · rw [List.eq_of_mem_replicate h]; decide
  · simp only [List.mem_cons, List.mem_singleton, List.not_mem_nil, or_false] at h
    rcases h with rfl | rfl <;> decide

theorem pyStrip_c5 : pyStrip c5Value = c5Value := by
  have h1 : c5Value.dropWhile isPySpace = c5Value := by
    unfold c5Value
    rw [show (9999 : Nat) = 9998 + 1 from rfl, List.replicate_succ, List.cons_append,
        List.dropWhile_cons, if_neg (by decide)]
  have hrev : c5Value.reverse = 'a' :: ' ' :: List.replicate 9999 'x' := by
    unfold c5Value
    rw [List.reverse_append, List.reverse_replicate]
    rfl
  have h2 : c5Value.reverse.dropWhile isPySpace = c5Value.reverse := by
    rw [hrev, List.dropWhile_cons, if_neg (by decide)]
  unfold pyStrip
  rw [h1, h2, List.reverse_reverse]

theorem take_c5 : c5Value.take 10000 = List.replicate 9999 'x' ++ [' '] := by
  unfold c5Value
  rw [List.take_append_eq_append_take, List.length_replicate,
      List.take_of_length_le (by rw [List.length_replicate]; omega)]
  norm_num

/-- **C5 (counterexample).** The claim says every sanitized string value
has no trailing whitespace.  On the 10001-character value
`'x' * 9999 + ' ' + 'a'` — which itself has no leading or trailing
whitespace — the sanitizer strips nothing and then truncates to 10000
characters, leaving a trailing space: truncation after trimming can
re-expose trailing whitespace. -/
theorem C5_counterexample :
    (sanitizeValue c5Value).getLast? = some ' ' ∧ isPySpace ' ' = true := by
  constructor
  · unfold sanitizeValue
    rw [removeNul_c5, pyStrip_c5, take_c5]
    exact List.getLast?_concat _
  · decide

/-- **C5 (amended).** The sanitizer keeps every key unchanged and maps
each value to `take 10000 (strip (removeNul value))`: every sanitized
value has length at most 10,000, contains no NUL byte, and has no
leading whitespace; it also has no trailing whitespace whenever no
truncation occurred (result shorter than 10,000) — but a truncated
value may end in whitespace, as the counterexample shows. -/
theorem C5_sanitize_amended (data : List (List Char × List Char)) :
    (sanitize_form_data data).map Prod.fst = data.map Prod.fst ∧
    ∀ kv ∈ sanitize_form_data data,
      kv.2.length ≤ 10000 ∧
      NULC ∉ kv.2 ∧
      (∀ c, kv.2.head? = some c → isPySpace c = false) ∧
      (kv.2.length < 10000 → ∀ c, kv.2.getLast? = some c → isPySpace c = false) := by
  refine ⟨?_, ?_⟩
  · unfold sanitize_form_data
    rw [List.map_map]
    rfl
  · intro kv hkv
    unfold sanitize_form_data at hkv
    obtain ⟨ab, _, rfl⟩ := List.mem_map.mp hkv
    refine ⟨sanitizeValue_length_le _, ?_, ?_, ?_⟩
    · intro hc
      exact sanitizeValue_no_nul hc rfl
    · intro c hc
      exact sanitizeValue_head?_not_space hc
    · intro hlen c hc
      exact sanitizeValue_getLast?_not_space hlen hc

/-- Witness for `C5_sanitize_amended`: the guarantees hold for the
sanitized value of the concrete entry `("name", "  Alice  ")`. -/
theorem C5_sanitize_amended_witness :
    ("Alice".data.length ≤ 10000) ∧
    NULC ∉ "Alice".data ∧
    (∀ c, "Alice".data.head? = some c → isPySpace c = false) ∧
    ("Alice".data.length < 10000 → ∀ c, "Alice".data.getLast? = some c →
      isPySpace c = false) :=
  (C5_sanitize_amended [("name".data, "  Alice  ".data)]).2
    ("name".data, "Alice".data) (by decide)

/-! ## C3: empty payload -/

/-- **C3.** Once the credential gate has passed, a request whose raw
form-data mapping has zero entries is answered with HTTP 400
("No form data provided") and leaves the persistent state untouched —
no Submission row, no file writes — regardless of attached file parts;
the emptiness test is taken on the raw mapping, before `sanitize_form_data`
runs on it. -/
theorem C3_empty_payload (cfg : AppConfig) (env : Env) (db : DB) (req : Request)
    (keyObj : ApiKey)
    (hkey : db.api_keys.find? (fun k => k.key = req.api_key && k.is_active) = some keyObj)
    (hempty : req.form = []) :
    submit_form cfg env db req = (.err 400 "No form data provided".data, db) := by
  unfold submit_form
  rw [hkey, hempty]
  rfl

/-- Witness for `C3_empty_payload`: a concrete empty-form request with a
file part attached still gets 400 and changes nothing. -/
theorem C3_empty_payload_witness :
    submit_form cfg0 (mkEnv .ok .ok) db0
      { api_key := "K123".data, form := [],
        files := [{ filename := "a.pdf".data, size := 3, content_type := "application/pdf".data }],
        ip := "1.2.3.4".data, user_agent := "ua".data } =
      (.err 400 "No form data provided".data, db0) :=
  C3_empty_payload cfg0 (mkEnv .ok .ok) db0 _ key0 (by decide) rfl

/-! ## C4: invalid or inactive credential -/

/-- **C4.** When the credential lookup (`filter_by(key=…, is_active=True)`)
finds nothing — whether the token is unknown or the row exists but is
deactivated — the endpoint answers with the one fixed response
`401 "Invalid or inactive API key"` and performs no persistence at all:
the returned state is the input state, so no Submission row is created
and no usage counter moves.  Because the response is the same constant
in both cases, the unknown and the deactivated case are
indistinguishable to the caller. -/
theorem C4_invalid_credential (cfg : AppConfig) (env : Env) (db : DB) (req : Request)
    (hkey : db.api_keys.find? (fun k => k.key = req.api_key && k.is_active) = none) :
    submit_form cfg env db req = (.err 401 "Invalid or inactive API key".data, db) := by
  unfold submit_form
  rw [hkey]

/-- Witness for `C4_invalid_credential`: an unknown token and a
deactivated credential produce the identical 401 response, with the
state unchanged in both cases. -/
theorem C4_invalid_credential_witness :
    submit_form cfg0 (mkEnv .ok .ok) db0
      { api_key := "unknown".data, form := [("a".data, "b".data)], files := [],
        ip := [], user_agent := [] } =
      (.err 401 "Invalid or inactive API key".data, db0) ∧
    submit_form cfg0 (mkEnv .ok .ok)
      { db0 with api_keys := [{ key0 with is_active := false }] }
      { api_key := "K123".data, form := [("a".data, "b".data)], files := [],
        ip := [], user_agent := [] } =
      (.err 401 "Invalid or inactive API key".data,
       { db0 with api_keys := [{ key0 with is_active := false }] }) :=
  ⟨C4_invalid_credential _ _ _ _ (by decide), C4_invalid_credential _ _ _ _ (by decide)⟩

/-! ## C8: transport selection -/

/-- **C8.** The dispatcher picks the transport solely from the presence
of the Resend API key: with a key configured only the Resend transport
is ever invoked, without one only SMTP is; and when the selected
transport fails, the dispatcher reports `(False, message)` for that call
with still exactly the one transport invoked — it never cascades to the
other transport. -/
theorem C8_transport_selection (key : List Char) (env : Env) :
    ((send_submission_notification key env).2 =
      if key.isEmpty then [Transport.smtp] else [Transport.resendApi]) ∧
    (key.isEmpty = false → Transport.smtp ∉ (send_submission_notification key env).2) ∧
    (key.isEmpty = true → Transport.resendApi ∉ (send_submission_notification key env).2) ∧
    (∀ m, key.isEmpty = false → env.resendResult = .exnRaised m →
      (send_submission_notification key env).1 =
        (false, some ("Resend error: ".data ++ m)) ∧
      (send_submission_notification key env).2 = [Transport.resendApi]) ∧
    (∀ m, key.isEmpty = true → env.smtpResult = .exnRaised m →
      (send_submission_notification key env).1 =
        (false, some ("Failed to send email: ".data ++ m)) ∧
      (send_submission_notification key env).2 = [Transport.smtp]) := by
  unfold send_submission_notification
  by_cases hk : key.isEmpty
  · rw [if_pos hk, if_pos hk]
    refine ⟨rfl, ?_, ?_, ?_, ?_⟩
    · intro h; rw [hk] at h; cases h
    · intro _; simp
    · intro m h _; rw [hk] at h; cases h
    · intro m _ hm; rw [hm]; exact ⟨rfl, rfl⟩
  · rw [if_neg hk, if_neg hk]
    have hk' : key.isEmpty = false := Bool.of_not_eq_true hk
    refine ⟨rfl, ?_, ?_, ?_, ?_⟩
    · intro _; simp
    · intro h; rw [h] at hk'; cases hk'
    · intro m _ hm; rw [hm]; exact ⟨rfl, rfl⟩
    · intro m h _; rw [h] at hk'; cases hk'

/-- Witness for `C8_transport_selection`: with a configured Resend key
and a Resend transport error, only the Resend transport is invoked and
the failure is reported structurally. -/
theorem C8_transport_selection_witness :
    (send_submission_notification "re_abc".data (mkEnv (.exnRaised "boom".data) .ok)).1 =
      (false, some ("Resend error: ".data ++ "boom".data)) ∧
    (send_submission_notification "re_abc".data (mkEnv (.exnRaised "boom".data) .ok)).2 =
      [Transport.resendApi] :=
  (C8_transport_selection "re_abc".data (mkEnv (.exnRaised "boom".data) .ok)).2.2.2.1
    "boom".data (by decide) rfl

/-! ## File-loop lemmas -/

theorem processFiles_nil (cfg : AppConfig) (env : Env) (kid i : Nat) :
    processFiles cfg env kid [] i = .done [] [] := rfl

theorem processFiles_done_of_allowed (cfg : AppConfig) (env : Env) (kid : Nat) :
    ∀ (files : List FilePart) (i : Nat),
    (∀ f ∈ files, f.filename ≠ [] → allowed_file f.filename cfg.allowed_extensions = true) →
    ∃ w s, processFiles cfg env kid files i = .done w s := by
  intro files
  induction files with
  | nil => exact fun i _ => ⟨[], [], rfl⟩
  | cons f rest ih =>
    intro i h
    unfold processFiles
    by_cases hf : f.filename = []
    · rw [if_pos hf]
      exact ih i (fun g hg => h g (List.mem_cons_of_mem _ hg))
    · rw [if_neg hf]
      have hall := h f (List.mem_cons_self _ _) hf
      rw [hall]
      obtain ⟨w, s, hws⟩ := ih (i + 1) (fun g hg => h g (List.mem_cons_of_mem _ hg))
      rw [hws]
      exact ⟨_, _, rfl⟩

/-! ## C2: notification failure never fails the request -/

theorem dispatcher_failure_nonempty (key : List Char) (env : Env)
    (h : (send_submission_notification key env).1.1 = false) :
    ∃ e, (send_submission_notification key env).1.2 = some e ∧ e ≠ [] := by
  unfold send_submission_notification at h ⊢
  by_cases hk : key.isEmpty
  · rw [if_pos hk] at h ⊢
    cases hs : env.smtpResult with
    | ok => rw [hs] at h; cases h
    | exnRaised m =>
        exact ⟨_, rfl, List.append_ne_nil_of_left_ne_nil (by decide) m⟩
  · rw [if_neg hk] at h ⊢
    cases hs : env.resendResult with
    | ok => rw [hs] at h; cases h
    | exnRaised m =>
        exact ⟨_, rfl, List.append_ne_nil_of_left_ne_nil (by decide) m⟩

/-- **C2.** For an otherwise-accepted submission, a notification-delivery
failure never fails the request: the endpoint still commits the
submission and answers HTTP 201, and the committed row carries
`email_sent = false` together with a non-empty `email_error` message
(every failure message the dispatcher produces starts with a fixed
non-empty transport prefix). -/
theorem C2_email_failure_still_created (cfg : AppConfig) (env : Env) (db : DB)
    (req : Request) (keyObj : ApiKey)
    (hkey : db.api_keys.find? (fun k => k.key = req.api_key && k.is_active) = some keyObj)
    (hform : req.form ≠ [])
    (hok : ∀ f ∈ req.files, f.filename ≠ [] →
      allowed_file f.filename cfg.allowed_extensions = true)
    (hfail : (send_submission_notification cfg.resend_api_key env).1.1 = false) :
    ∃ sub : FormSubmission,
      (submit_form cfg env db req).1 = .created sub.id ∧
      (submit_form cfg env db req).2.submissions = db.submissions ++ [sub] ∧
      sub.email_sent = false ∧
      ∃ e, sub.email_error = some e ∧ e ≠ [] := by
  obtain ⟨w, s, hws⟩ := processFiles_done_of_allowed cfg env keyObj.id req.files 0 hok
  obtain ⟨e, he, hne⟩ := dispatcher_failure_nonempty cfg.resend_api_key env hfail
  unfold submit_form
  rw [hkey]
  dsimp only
  rw [if_neg (by simp [hform]), hws]
  dsimp only
  refine ⟨_, rfl, rfl, ?_, ⟨e, ?_, hne⟩⟩
  · simp only [hfail]
  · simp only [hfail, Bool.false_eq_true, if_false, he]

/-- Witness for `C2_email_failure_still_created`: a concrete accepted
submission whose Resend send raises is still committed with HTTP 201,
`email_sent = false` and the non-empty error `"Resend error: boom"`. -/
theorem C2_email_failure_still_created_witness :
    ∃ sub : FormSubmission,
      (submit_form cfg0 (mkEnv (.exnRaised "boom".data) .ok) db0
        { api_key := "K123".data, form := [("msg".data, "hi".data)], files := [],
          ip := [], user_agent := [] }).1 = .created sub.id ∧
      (submit_form cfg0 (mkEnv (.exnRaised "boom".data) .ok) db0
        { api_key := "K123".data, form := [("msg".data, "hi".data)], files := [],
          ip := [], user_agent := [] }).2.submissions = db0.submissions ++ [sub] ∧
      sub.email_sent = false ∧
      ∃ e, sub.email_error = some e ∧ e ≠ [] :=
  C2_email_failure_still_created cfg0 (mkEnv (.exnRaised "boom".data) .ok) db0
    _ key0 (by decide) (by decide) (by intro f hf; cases hf) (by decide)

theorem processFiles_cons (cfg : AppConfig) (env : Env) (kid : Nat) (f : FilePart)
    (rest : List FilePart) (i : Nat) :
    processFiles cfg env kid (f :: rest) i =
      if f.filename = [] then processFiles cfg env kid rest i
      else if !allowed_file f.filename cfg.allowed_extensions then
        FilesOutcome.badExt [] f.filename
      else
        match processFiles cfg env kid rest (i + 1) with
        | .badExt w off => .badExt ((save_uploaded_file cfg env kid i f).2.1 :: w) off
        | .done w s =>
            .done ((save_uploaded_file cfg env kid i f).2.1 :: w)
              (⟨f.filename, (save_uploaded_file cfg env kid i f).1,
                (save_uploaded_file cfg env kid i f).2.1,
                (save_uploaded_file cfg env kid i f).2.2, f.content_type⟩ :: s) := rfl

theorem processFiles_skip_empty (cfg : AppConfig) (env : Env) (kid : Nat) :
    ∀ (files : List FilePart) (i : Nat),
    processFiles cfg env kid (files.filter (fun f => !f.filename.isEmpty)) i =
      processFiles cfg env kid files i := by
  intro files
  induction files with
  | nil => intro i; rfl
  | cons f rest ih =>
    intro i
    rw [List.filter_cons]
    by_cases hf : f.filename = []
    · rw [if_neg (by simp [hf]), ih, processFiles_cons, if_pos hf]
    · rw [if_pos (by simp [hf]), processFiles_cons, processFiles_cons,
          if_neg hf, if_neg hf, ih]

/-- **C10.** Every uploaded file part whose filename is empty is silently
skipped by the file loop: running the endpoint on a request is the very
same function as running it on the request with those parts removed, so
an empty-filename part is never checked against the allowed-extension
set, never written to storage, never recorded as an Attachment — and the
rest of the submission proceeds exactly as if the part were absent
(in particular it can still be committed with HTTP 201). -/
theorem C10_empty_filename_parts_skipped (cfg : AppConfig) (env : Env) (db : DB)
    (req : Request) :
    submit_form cfg env db req =
      submit_form cfg env db
        { req with files := req.files.filter (fun f => !f.filename.isEmpty) } := by
  unfold submit_form
  dsimp only
  cases hk : db.api_keys.find? (fun k => k.key = req.api_key && k.is_active) with
  | none => rfl
  | some keyObj =>
    dsimp only
    by_cases hform : req.form.isEmpty
    · rw [if_pos hform, if_pos hform]
    · rw [if_neg hform, if_neg hform, processFiles_skip_empty]

/-! ## C1: disallowed extension aborts, but earlier writes survive -/

theorem processFiles_badExt_of_find (cfg : AppConfig) (env : Env) (kid : Nat) :
    ∀ (files : List FilePart) (i : Nat) (fbad : FilePart),
    files.find? (fun f => !f.filename.isEmpty &&
      !allowed_file f.filename cfg.allowed_extensions) = some fbad →
    ∃ w, processFiles cfg env kid files i = .badExt w fbad.filename ∧
      w.length = goodPrefixCount cfg.allowed_extensions files := by
  intro files
  induction files with
  | nil => intro i fbad h; cases h
  | cons f rest ih =>
    intro i fbad h
    rw [processFiles_cons]
    by_cases hf : f.filename = []
    · have hfe : f.filename.isEmpty = true := by simp [hf]
      rw [List.find?_cons_of_neg _ (by simp [hfe])] at h
      obtain ⟨w, hw, hlen⟩ := ih i fbad h
      refine ⟨w, ?_, ?_⟩
      · rw [if_pos hf, hw]
      · rw [hlen]
        unfold goodPrefixCount
        rw [List.takeWhile_cons, if_pos (by simp [hfe]), List.filter_cons,
            if_neg (by simp [hfe])]
    · have hfe : f.filename.isEmpty = false := by
        cases hfn : f.filename with
        | nil => exact absurd hfn hf
        | cons a t => rfl
      by_cases ha : allowed_file f.filename cfg.allowed_extensions
      · rw [List.find?_cons_of_neg _ (by simp [ha])] at h
        obtain ⟨w, hw, hlen⟩ := ih (i + 1) fbad h
        refine ⟨(save_uploaded_file cfg env kid i f).2.1 :: w, ?_, ?_⟩
        · rw [if_neg hf, if_neg (by simp [ha]), hw]
        · unfold goodPrefixCount
          rw [List.takeWhile_cons, if_pos (by simp [ha]), List.filter_cons,
              if_pos (by simp [hfe]), List.length_cons, List.length_cons, hlen]
          rfl
      · have hpred : (!f.filename.isEmpty &&
            !allowed_file f.filename cfg.allowed_extensions) = true := by
          simp [hfe, ha]
        rw [List.find?_cons_of_pos (p := fun f =>
          !f.filename.isEmpty && !allowed_file f.filename cfg.allowed_extensions) rest hpred] at h
        injection h with h
        refine ⟨[], ?_, ?_⟩
        · rw [if_neg hf, if_pos (by simp [ha]), h]
        · unfold goodPrefixCount
          rw [List.takeWhile_cons, if_neg (by simp [hfe, ha])]
          rfl

/-- **C1 (counterexample).** The claim says a request containing a
disallowed-extension part creates *no* file: the extension gate is
supposedly evaluated for every part before any write.  In the code the
check and the write are interleaved per part, so for a request carrying
`good.pdf` (allowed) followed by `evil.exe` (disallowed), the endpoint
does answer 400 naming `evil.exe` — but `good.pdf` has already been
written: exactly one new directory entry survives the aborted request. -/
theorem C1_counterexample :
    (submit_form cfg0 (mkEnv .ok .ok) db0
      { api_key := "K123".data, form := [("msg".data, "hi".data)],
        files := [{ filename := "good.pdf".data, size := 4, content_type := "application/pdf".data },
                  { filename := "evil.exe".data, size := 9, content_type := "application/x-exe".data }],
        ip := "1.2.3.4".data, user_agent := "ua".data }).1 =
      .err 400 ("File type not allowed: ".data ++ "evil.exe".data) ∧
    (submit_form cfg0 (mkEnv .ok .ok) db0
      { api_key := "K123".data, form := [("msg".data, "hi".data)],
        files := [{ filename := "good.pdf".data, size := 4, content_type := "application/pdf".data },
                  { filename := "evil.exe".data, size := 9, content_type := "application/x-exe".data }],
        ip := "1.2.3.4".data, user_agent := "ua".data }).2.stored_files.length =
      db0.stored_files.length + 1 := by
  constructor
  · rfl
  · rfl

/-- **C1 (amended).** A request carrying a disallowed-extension part
(after the credential and non-empty-form gates) is answered HTTP 400
naming the *first* offending part, and no Submission, Attachment or
credential change is committed — but the files of the allowed
non-empty-filename parts that precede the first offending part have
already been written to storage and survive the abort (one directory
entry each), so the file-acceptance gate is per-part, not all-or-nothing. -/
theorem C1_bad_extension_aborts (cfg : AppConfig) (env : Env) (db : DB) (req : Request)
    (keyObj : ApiKey) (fbad : FilePart)
    (hkey : db.api_keys.find? (fun k => k.key = req.api_key && k.is_active) = some keyObj)
    (hform : req.form ≠ [])
    (hbad : req.files.find? (fun f => !f.filename.isEmpty &&
      !allowed_file f.filename cfg.allowed_extensions) = some fbad) :
    (submit_form cfg env db req).1 =
      .err 400 ("File type not allowed: ".data ++ fbad.filename) ∧
    (submit_form cfg env db req).2.api_keys = db.api_keys ∧
    (submit_form cfg env db req).2.submissions = db.submissions ∧
    (submit_form cfg env db req).2.file_uploads = db.file_uploads ∧
    (submit_form cfg env db req).2.stored_files.length =
      db.stored_files.length + goodPrefixCount cfg.allowed_extensions req.files := by
  obtain ⟨w, hw, hlen⟩ := processFiles_badExt_of_find cfg env keyObj.id req.files 0 fbad hbad
  unfold submit_form
  rw [hkey]
  dsimp only
  rw [if_neg (by simp [hform]), hw]
  exact ⟨rfl, rfl, rfl, rfl, by simp [hlen]⟩

/-- Witness for `C1_bad_extension_aborts` at the counterexample input:
400 naming `evil.exe`, database rows untouched, one surviving write. -/
theorem C1_bad_extension_aborts_witness :
    (submit_form cfg0 (mkEnv .ok .ok) db0
      { api_key := "K123".data, form := [("subject".data, "yo".data)],
        files := [{ filename := "notes.txt".data, size := 2, content_type := "text/plain".data },
                  { filename := "virus.bat".data, size := 5, content_type := "text/plain".data }],
        ip := [], user_agent := [] }).1 =
      .err 400 ("File type not allowed: ".data ++
        ({ filename := "virus.bat".data, size := 5,
           content_type := "text/plain".data : FilePart }).filename) ∧
    (submit_form cfg0 (mkEnv .ok .ok) db0
      { api_key := "K123".data, form := [("subject".data, "yo".data)],
        files := [{ filename := "notes.txt".data, size := 2, content_type := "text/plain".data },
                  { filename := "virus.bat".data, size := 5, content_type := "text/plain".data }],
        ip := [], user_agent := [] }).2.api_keys = db0.api_keys ∧
    (submit_form cfg0 (mkEnv .ok .ok) db0
      { api_key := "K123".data, form := [("subject".data, "yo".data)],
        files := [{ filename := "notes.txt".data, size := 2, content_type := "text/plain".data },
                  { filename := "virus.bat".data, size := 5, content_type := "text/plain".data }],
        ip := [], user_agent := [] }).2.submissions = db0.submissions ∧
    (submit_form cfg0 (mkEnv .ok .ok) db0
      { api_key := "K123".data, form := [("subject".data, "yo".data)],
        files := [{ filename := "notes.txt".data, size := 2, content_type := "text/plain".data },
                  { filename := "virus.bat".data, size := 5, content_type := "text/plain".data }],
        ip := [], user_agent := [] }).2.file_uploads = db0.file_uploads ∧
    (submit_form cfg0 (mkEnv .ok .ok) db0
      { api_key := "K123".data, form := [("subject".data, "yo".data)],
        files := [{ filename := "notes.txt".data, size := 2, content_type := "text/plain".data },
                  { filename := "virus.bat".data, size := 5, content_type := "text/plain".data }],
        ip := [], user_agent := [] }).2.stored_files.length =
      db0.stored_files.length + goodPrefixCount cfg0.allowed_extensions
        [{ filename := "notes.txt".data, size := 2, content_type := "text/plain".data },
         { filename := "virus.bat".data, size := 5, content_type := "text/plain".data }] :=
  C1_bad_extension_aborts cfg0 (mkEnv .ok .ok) db0 _ key0 _ (by decide) (by decide) (by decide)

/-! ## C7: HTML and plain-text bodies carry the same field data -/

theorem flatten_map_split {α : Type} (f : α → List Char) :
    ∀ {l : List α} {x : α}, x ∈ l →
    ∃ L R, (l.map f).flatten = L ++ (f x ++ R) := by
  intro l
  induction l with
  | nil => intro x h; cases h
  | cons a t ih =>
    intro x h
    rcases List.mem_cons.mp h with rfl | h
    · exact ⟨[], (t.map f).flatten, by simp⟩
    · obtain ⟨L, R, hLR⟩ := ih h
      exact ⟨f a ++ L, R, by simp [hLR, List.append_assoc]⟩

theorem isInfix_of_isInfix_middle {u m : List Char} (h : u <:+: m)
    (pre post : List Char) : u <:+: pre ++ m ++ post := by
  obtain ⟨s, t, rfl⟩ := h
  exact ⟨pre ++ s, t ++ post, by simp [List.append_assoc]⟩

theorem htmlField_key (kv : List Char × List Char) : kv.1 <:+: htmlField kv :=
  ⟨htmlFieldPre.data, htmlFieldMid.data ++ kv.2 ++ htmlFieldPost.data,
    by simp [htmlField, List.append_assoc]⟩

theorem htmlField_val (kv : List Char × List Char) : kv.2 <:+: htmlField kv :=
  ⟨htmlFieldPre.data ++ kv.1 ++ htmlFieldMid.data, htmlFieldPost.data,
    by simp [htmlField, List.append_assoc]⟩

theorem textField_key (kv : List Char × List Char) : kv.1 <:+: textField kv :=
  ⟨[], ":\n".data ++ kv.2 ++ "\n\n".data, by simp [textField, List.append_assoc]⟩

theorem textField_val (kv : List Char × List Char) : kv.2 <:+: textField kv :=
  ⟨kv.1 ++ ":\n".data, "\n\n".data, by simp [textField, List.append_assoc]⟩

theorem create_html_body_split (name : List Char)
    (data : List (List Char × List Char)) (files : List AttachmentDesc)
    (app_url : List Char) (fmtSize : Nat → List Char) :
    create_html_body name data files app_url fmtSize =
      (htmlDocPre.data ++ name ++ htmlDocMid.data) ++
        (data.map htmlField).flatten ++
        ((if files.isEmpty then []
          else htmlFilesHead.data ++ (files.map (htmlFileItem fmtSize)).flatten
            ++ "</div>".data) ++
         htmlFooterPre.data ++ app_url ++ htmlFooterPost.data) := by
  unfold create_html_body
  simp [List.append_assoc]

theorem create_text_body_split (name : List Char)
    (data : List (List Char × List Char)) (files : List AttachmentDesc)
    (app_url : List Char) (fmtSize : Nat → List Char) :
    create_text_body name data files app_url fmtSize =
      ("New Form Submission\n".data ++ "From: ".data ++ name ++ "\n".data ++
        dashes50 ++ "\n\n".data) ++
        (data.map textField).flatten ++
        ((if files.isEmpty then []
          else "\nAttached Files (".data ++ Nat.toDigits 10 files.length ++ "):\n".data
            ++ (files.map (textFileItem fmtSize)).flatten) ++
         "\n".data ++ dashes50 ++ "\n".data ++
         "View dashboard: ".data ++ app_url ++ "\n".data) := by
  unfold create_text_body
  simp [List.append_assoc]

/-- **C7.** For every recipient-independent rendering input — tenant
name, sanitized form-data mapping, attachment-descriptor list — each
key/value pair of the mapping appears (as a contiguous substring) in
both the HTML notification body and the plain-text notification body:
the two renderings carry the same field labels and values. -/
theorem C7_bodies_same_fields (name : List Char)
    (data : List (List Char × List Char)) (files : List AttachmentDesc)
    (app_url : List Char) (fmtSize : Nat → List Char) :
    ∀ kv ∈ data,
      kv.1 <:+: create_html_body name data files app_url fmtSize ∧
      kv.2 <:+: create_html_body name data files app_url fmtSize ∧
      kv.1 <:+: create_text_body name data files app_url fmtSize ∧
      kv.2 <:+: create_text_body name data files app_url fmtSize := by
  intro kv hkv
  obtain ⟨L1, R1, h1⟩ := flatten_map_split htmlField hkv
  obtain ⟨L2, R2, h2⟩ := flatten_map_split textField hkv
  have hflat1k : kv.1 <:+: (data.map htmlField).flatten := by
    rw [h1]
    obtain ⟨s, t, hst⟩ := htmlField_key kv
    exact ⟨L1 ++ s, t ++ R1, by rw [← hst]; simp [List.append_assoc]⟩
  have hflat1v : kv.2 <:+: (data.map htmlField).flatten := by
    rw [h1]
    obtain ⟨s, t, hst⟩ := htmlField_val kv
    exact ⟨L1 ++ s, t ++ R1, by rw [← hst]; simp [List.append_assoc]⟩
  have hflat2k : kv.1 <:+: (data.map textField).flatten := by
    rw [h2]
    obtain ⟨s, t, hst⟩ := textField_key kv
    exact ⟨L2 ++ s, t ++ R2, by rw [← hst]; simp [List.append_assoc]⟩
  have hflat2v : kv.2 <:+: (data.map textField).flatten := by
    rw [h2]
    obtain ⟨s, t, hst⟩ := textField_val kv
    exact ⟨L2 ++ s, t ++ R2, by rw [← hst]; simp [List.append_assoc]⟩
  refine ⟨?_, ?_, ?_, ?_⟩
  · rw [create_html_body_split]
    exact isInfix_of_isInfix_middle hflat1k _ _
  · rw [create_html_body_split]
    exact isInfix_of_isInfix_middle hflat1v _ _
  · rw [create_text_body_split]
    exact isInfix_of_isInfix_middle hflat2k _ _
  · rw [create_text_body_split]
    exact isInfix_of_isInfix_middle hflat2v _ _

/-- Witness for `C7_bodies_same_fields`: the concrete pair
`("email", "a@x.com")` appears in both bodies rendered for a one-field
submission with no attachments. -/
theorem C7_bodies_same_fields_witness :
    "email".data <:+:
      create_html_body "Acme".data [("email".data, "a@x.com".data)] []
        "http://localhost:5000".data (fun _ => "0.0 B".data) ∧
    "a@x.com".data <:+:
      create_html_body "Acme".data [("email".data, "a@x.com".data)] []
        "http://localhost:5000".data (fun _ => "0.0 B".data) ∧
    "email".data <:+:
      create_text_body "Acme".data [("email".data, "a@x.com".data)] []
        "http://localhost:5000".data (fun _ => "0.0 B".data) ∧
    "a@x.com".data <:+:
      create_text_body "Acme".data [("email".data, "a@x.com".data)] []
        "http://localhost:5000".data (fun _ => "0.0 B".data) :=
  C7_bodies_same_fields "Acme".data [("email".data, "a@x.com".data)] []
    "http://localhost:5000".data (fun _ => "0.0 B".data)
    ("email".data, "a@x.com".data) (by simp)

/-! ## C6: accepted submission with N attachments -/

theorem storedFilename_inj {env : Env} {i j : Nat} {a b : List Char}
    (hlen : (env.tokens i).length = (env.tokens j).length)
    (h : storedFilename env i a = storedFilename env j b) :
    env.tokens i = env.tokens j := by
  unfold storedFilename at h
  rw [List.append_assoc, List.append_assoc] at h
  have h2 := List.append_cancel_left h
  rw [List.cons_append, List.cons_append] at h2
  injection h2 with _ h3
  exact (List.append_inj h3 hlen).1

theorem tokens_isInfix_path (cfg : AppConfig) (env : Env) (kid : Nat)
    (i : Nat) (orig : List Char) :
    env.tokens i <:+: uploadDir cfg env kid ++ '/' :: storedFilename env i orig :=
  ⟨uploadDir cfg env kid ++ '/' :: env.timestamp ++ ['_'],
   '_' :: env.secure orig,
   by simp [storedFilename, List.append_assoc]⟩

theorem processFiles_done_spec (cfg : AppConfig) (env : Env) (kid : Nat) (n : Nat)
    (htok : ∀ a b, a < n → b < n → env.tokens a = env.tokens b → a = b)
    (hlen16 : ∀ a, a < n → (env.tokens a).length = 16) :
    ∀ (files : List FilePart) (i : Nat), i + files.length ≤ n →
    (∀ f ∈ files, f.filename ≠ []) →
    (∀ f ∈ files, allowed_file f.filename cfg.allowed_extensions = true) →
    ∃ w s, processFiles cfg env kid files i = .done w s ∧
      s.length = files.length ∧
      w = s.map (fun u => u.file_path) ∧
      (∀ x ∈ s.map (fun u => u.stored_filename),
        ∃ j orig, i ≤ j ∧ j < i + files.length ∧ x = storedFilename env j orig) ∧
      (s.map (fun u => u.stored_filename)).Nodup ∧
      (∀ p ∈ w, ∃ j, i ≤ j ∧ j < i + files.length ∧ env.tokens j <:+: p) := by
  intro files
  induction files with
  | nil =>
    intro i _ _ _
    refine ⟨[], [], rfl, rfl, rfl, ?_, List.nodup_nil, ?_⟩
    · intro x hx; cases hx
    · intro p hp; cases hp
  | cons f rest ih =>
    intro i hle hne hall
    have hf : f.filename ≠ [] := hne f (List.mem_cons_self _ _)
    have ha : allowed_file f.filename cfg.allowed_extensions = true :=
      hall f (List.mem_cons_self _ _)
    obtain ⟨w, s, hws, hsl, hwp, hmem, hnd, hinf⟩ :=
      ih (i + 1) (by simpa [Nat.add_comm, Nat.add_left_comm] using hle)
        (fun g hg => hne g (List.mem_cons_of_mem _ hg))
        (fun g hg => hall g (List.mem_cons_of_mem _ hg))
    rw [List.length_cons] at hle
    refine ⟨(save_uploaded_file cfg env kid i f).2.1 :: w,
      ⟨f.filename, (save_uploaded_file cfg env kid i f).1,
       (save_uploaded_file cfg env kid i f).2.1,
       (save_uploaded_file cfg env kid i f).2.2, f.content_type⟩ :: s,
      ?_, ?_, ?_, ?_, ?_, ?_⟩
    · rw [processFiles_cons, if_neg hf, if_neg (by simp [ha]), hws]
    · rw [List.length_cons, List.length_cons, hsl]
    · rw [List.map_cons, hwp]
    · intro x hx
      rw [List.map_cons] at hx
      rcases List.mem_cons.mp hx with rfl | hx
      · exact ⟨i, f.filename, Nat.le_refl i, by simp only [List.length_cons]; omega, rfl⟩
      · obtain ⟨j, orig, hij, hjb, hxx⟩ := hmem x hx
        exact ⟨j, orig, Nat.le_of_succ_le hij, by simp only [List.length_cons]; omega, hxx⟩
    · rw [List.map_cons]
      refine List.nodup_cons.mpr ⟨?_, hnd⟩
      intro hmm
      obtain ⟨j, orig, hij, hjb, hxx⟩ := hmem _ hmm
      have hin : i < n := by omega
      have hjn : j < n := by omega
      have := storedFilename_inj
        (by rw [hlen16 i hin, hlen16 j hjn]) hxx
      have := htok i j hin hjn this
      omega
    · intro p hp
      rcases List.mem_cons.mp hp with rfl | hp
      · exact ⟨i, Nat.le_refl i, by simp only [List.length_cons]; omega,
          tokens_isInfix_path cfg env kid i f.filename⟩
      · obtain ⟨j, hij, hjb, hj⟩ := hinf p hp
        exact ⟨j, Nat.le_of_succ_le hij, by simp only [List.length_cons]; omega, hj⟩

/-- **C6.** An accepted submission carrying `N` file parts (all with
non-empty filenames and allowed extensions) commits, in the one
resulting state: exactly `N` new Attachment rows whose storage filenames
are pairwise distinct (the `token_hex` draws being distinct and 16 hex
characters each) and whose written paths are new directory entries
distinct from every pre-existing one (the draws being fresh), while the
owning credential's usage counter increases by exactly 1 and its
last-used timestamp is set to now — all together with the one new
Submission row, as the single commit of the request. -/
theorem C6_accepted_submission (cfg : AppConfig) (env : Env) (db : DB) (req : Request)
    (keyObj : ApiKey)
    (hkey : db.api_keys.find? (fun k => k.key = req.api_key && k.is_active) = some keyObj)
    (hform : req.form ≠ [])
    (hnemp : ∀ f ∈ req.files, f.filename ≠ [])
    (hallow : ∀ f ∈ req.files, allowed_file f.filename cfg.allowed_extensions = true)
    (htok : ∀ a b, a < req.files.length → b < req.files.length →
      env.tokens a = env.tokens b → a = b)
    (hlen16 : ∀ a, a < req.files.length → (env.tokens a).length = 16)
    (hfresh : ∀ e ∈ db.stored_files, ∀ a, a < req.files.length →
      ¬ env.tokens a <:+: e) :
    (submit_form cfg env db req).1 = .created (db.submissions.length + 1) ∧
    (submit_form cfg env db req).2.file_uploads.length =
      db.file_uploads.length + req.files.length ∧
    (((submit_form cfg env db req).2.file_uploads.drop db.file_uploads.length).map
      (fun u => u.stored_filename)).Nodup ∧
    (∀ p ∈ ((submit_form cfg env db req).2.stored_files.drop db.stored_files.length),
      p ∉ db.stored_files) ∧
    (submit_form cfg env db req).2.api_keys =
      db.api_keys.map (fun k => if k.id = keyObj.id then keyObj.increment_usage env.now else k) ∧
    (keyObj.increment_usage env.now).usage_count = keyObj.usage_count + 1 ∧
    (keyObj.increment_usage env.now).last_used = some env.now ∧
    (submit_form cfg env db req).2.submissions.length = db.submissions.length + 1 := by
  obtain ⟨w, s, hws, hsl, hwp, _, hnd, hinf⟩ :=
    processFiles_done_spec cfg env keyObj.id req.files.length htok hlen16
      req.files 0 (by omega) hnemp hallow
  unfold submit_form
  rw [hkey]
  dsimp only
  rw [if_neg (by simp [hform]), hws]
  dsimp only
  refine ⟨rfl, ?_, ?_, ?_, rfl, rfl, rfl, by simp⟩
  · simp [hsl]
  · rw [List.drop_left, List.map_map]
    exact hnd
  · intro p hp hpold
    rw [List.drop_left] at hp
    obtain ⟨j, _, hjb, hj⟩ := hinf p hp
    exact hfresh p hpold j (by omega) hj

/-- Witness for `C6_accepted_submission`: a concrete two-file accepted
submission creates exactly 2 attachment rows with distinct storage
names, new directory entries, and bumps the usage counter by one. -/
theorem C6_accepted_submission_witness :
    (submit_form cfg0 (mkEnv .ok .ok) db0
      { api_key := "K123".data, form := [("msg".data, "hi".data)],
        files := [{ filename := "a.pdf".data, size := 1, content_type := "application/pdf".data },
                  { filename := "b.txt".data, size := 2, content_type := "text/plain".data }],
        ip := [], user_agent := [] }).1 = .created (db0.submissions.length + 1) ∧
    (submit_form cfg0 (mkEnv .ok .ok) db0
      { api_key := "K123".data, form := [("msg".data, "hi".data)],
        files := [{ filename := "a.pdf".data, size := 1, content_type := "application/pdf".data },
                  { filename := "b.txt".data, size := 2, content_type := "text/plain".data }],
        ip := [], user_agent := [] }).2.file_uploads.length =
      db0.file_uploads.length + 2 ∧
    (((submit_form cfg0 (mkEnv .ok .ok) db0
      { api_key := "K123".data, form := [("msg".data, "hi".data)],
        files := [{ filename := "a.pdf".data, size := 1, content_type := "application/pdf".data },
                  { filename := "b.txt".data, size := 2, content_type := "text/plain".data }],
        ip := [], user_agent := [] }).2.file_uploads.drop db0.file_uploads.length).map
      (fun u => u.stored_filename)).Nodup ∧
    (∀ p ∈ ((submit_form cfg0 (mkEnv .ok .ok) db0
      { api_key := "K123".data, form := [("msg".data, "hi".data)],
        files := [{ filename := "a.pdf".data, size := 1, content_type := "application/pdf".data },
                  { filename := "b.txt".data, size := 2, content_type := "text/plain".data }],
        ip := [], user_agent := [] }).2.stored_files.drop db0.stored_files.length),
      p ∉ db0.stored_files) ∧
    (submit_form cfg0 (mkEnv .ok .ok) db0
      { api_key := "K123".data, form := [("msg".data, "hi".data)],
        files := [{ filename := "a.pdf".data, size := 1, content_type := "application/pdf".data },
                  { filename := "b.txt".data, size := 2, content_type := "text/plain".data }],
        ip := [], user_agent := [] }).2.api_keys =
      db0.api_keys.map (fun k => if k.id = key0.id then key0.increment_usage (mkEnv .ok .ok).now else k) ∧
    (key0.increment_usage (mkEnv .ok .ok).now).usage_count = key0.usage_count + 1 ∧
    (key0.increment_usage (mkEnv .ok .ok).now).last_used = some (mkEnv .ok .ok).now ∧
    (submit_form cfg0 (mkEnv .ok .ok) db0
      { api_key := "K123".data, form := [("msg".data, "hi".data)],
        files := [{ filename := "a.pdf".data, size := 1, content_type := "application/pdf".data },
                  { filename := "b.txt".data, size := 2, content_type := "text/plain".data }],
        ip := [], user_agent := [] }).2.submissions.length = db0.submissions.length + 1 :=
  C6_accepted_submission cfg0 (mkEnv .ok .ok) db0 _ key0 (by decide) (by decide)
    (by intro f hf; fin_cases hf <;> decide)
    (by intro f hf; fin_cases hf <;> decide)
    (by intro a b ha hb h
        simp only [List.length_cons, List.length_nil] at ha hb
        interval_cases a <;> interval_cases b <;>
          first | rfl | (exfalso; revert h; decide))
    (by intro a ha
        simp only [List.length_cons, List.length_nil] at ha
        interval_cases a <;> decide)
    (by intro e he; simp [db0] at he)

/-! ## C9: concurrent usage-counter increments -/

/-- **C9 (counterexample).** Two simultaneous accepted submissions
(`M = 2`) against the credential whose counter starts at 7: both
sessions load the row before either commits, each applies the in-object
`usage_count += 1` of `increment_usage` and writes its object back at
commit.  The final counter is 8 — exactly 1, not `M = 2`, greater than
before: an increment is lost, because the code's increment is a
read-modify-write on the session's loaded object, not a store-level
atomic increment. -/
theorem C9_counterexample :
    (interleavedPair db0 "K123".data 50 60).api_keys.map
      (fun k => k.usage_count) = [8] ∧
    key0.usage_count = 7 := by
  constructor
  · rfl
  · rfl

theorem find?_after_update (K : List Char) (keyObj' : ApiKey) :
    ∀ (l : List ApiKey) (keyObj : ApiKey),
    (l.map (fun k => k.id)).Nodup →
    l.find? (fun k => k.key = K && k.is_active) = some keyObj →
    keyObj'.key = keyObj.key → keyObj'.is_active = keyObj.is_active →
    keyObj'.id = keyObj.id →
    (l.map (fun k => if k.id = keyObj.id then keyObj' else k)).find?
      (fun k => k.key = K && k.is_active) = some keyObj' := by
  intro l
  induction l with
  | nil => intro keyObj _ hf; cases hf
  | cons x t ih =>
    intro keyObj hids hf hk ha hid
    rw [List.map_cons, List.nodup_cons] at hids
    by_cases hx : (x.key = K && x.is_active) = true
    · rw [List.find?_cons_of_pos (p := fun (k : ApiKey) => k.key = K && k.is_active) t hx] at hf
      injection hf with hf
      subst hf
      rw [List.map_cons, if_pos rfl]
      have hp' : (keyObj'.key = K && keyObj'.is_active) = true := by
        rw [hk, ha]
        exact hx
      rw [List.find?_cons_of_pos (p := fun (k : ApiKey) => k.key = K && k.is_active) _ hp']
    · rw [List.find?_cons_of_neg (p := fun (k : ApiKey) => k.key = K && k.is_active) t hx] at hf
      have hmem : keyObj ∈ t := List.mem_of_find?_eq_some hf
      have hne : x.id ≠ keyObj.id := by
        intro h
        exact hids.1 (h ▸ List.mem_map_of_mem (fun k => k.id) hmem)
      rw [List.map_cons, if_neg hne]
      rw [List.find?_cons_of_neg (p := fun (k : ApiKey) => k.key = K && k.is_active) _ hx]
      exact ih keyObj hids.2 hf hk ha hid

theorem submit_form_accepted_api_keys (cfg : AppConfig) (env : Env) (db : DB)
    (req : Request) (keyObj : ApiKey)
    (hkey : db.api_keys.find? (fun k => k.key = req.api_key && k.is_active) = some keyObj)
    (hform : req.form ≠ [])
    (hok : ∀ f ∈ req.files, f.filename ≠ [] →
      allowed_file f.filename cfg.allowed_extensions = true) :
    (submit_form cfg env db req).2.api_keys =
      db.api_keys.map (fun k =>
        if k.id = keyObj.id then keyObj.increment_usage env.now else k) := by
  obtain ⟨w, s, hws⟩ := processFiles_done_of_allowed cfg env keyObj.id req.files 0 hok
  unfold submit_form
  rw [hkey]
  dsimp only
  rw [if_neg (by simp [hform]), hws]

/-- **C9 (amended).** When the `M` accepted submissions are processed
strictly one after another — each request's session loading the
credential row from the state the previous request committed — the
usage counter does end exactly `M` greater than before.  But the
increment is *not* applied as a store-level atomic increment: it is a
read-modify-write on the object loaded at validation time and written
back at commit, so overlapping sessions can lose increments (see the
counterexample, where two simultaneous submissions leave the counter
only 1 greater). -/
theorem C9_serial_increments (cfg : AppConfig) (envs : Nat → Env) (req : Request) :
    ∀ (M : Nat) (db : DB) (keyObj : ApiKey),
    (db.api_keys.map (fun k => k.id)).Nodup →
    db.api_keys.find? (fun k => k.key = req.api_key && k.is_active) = some keyObj →
    req.form ≠ [] →
    (∀ f ∈ req.files, f.filename ≠ [] →
      allowed_file f.filename cfg.allowed_extensions = true) →
    ∃ keyObj', (serialSubmits cfg envs req M db).api_keys.find?
        (fun k => k.key = req.api_key && k.is_active) = some keyObj' ∧
      keyObj'.usage_count = keyObj.usage_count + M := by
  intro M
  induction M with
  | zero => intro db keyObj _ hkey _ _; exact ⟨keyObj, hkey, rfl⟩
  | succ m ih =>
    intro db keyObj hids hkey hform hok
    have hkeys := submit_form_accepted_api_keys cfg (envs m) db req keyObj hkey hform hok
    have hfind' : (submit_form cfg (envs m) db req).2.api_keys.find?
        (fun k => k.key = req.api_key && k.is_active) =
        some (keyObj.increment_usage (envs m).now) := by
      rw [hkeys]
      exact find?_after_update req.api_key _ db.api_keys keyObj hids hkey rfl rfl rfl
    have hids' : ((submit_form cfg (envs m) db req).2.api_keys.map
        (fun k => k.id)).Nodup := by
      rw [hkeys, List.map_map]
      have : ((fun k => k.id) ∘ fun k =>
          if k.id = keyObj.id then keyObj.increment_usage (envs m).now else k) =
          fun (k : ApiKey) => k.id := by
        funext k
        by_cases h : k.id = keyObj.id
        · simp [h, ApiKey.increment_usage]
        · simp [h]
      rw [this]
      exact hids
    obtain ⟨keyObj', hfind'', husage⟩ :=
      ih (submit_form cfg (envs m) db req).2 (keyObj.increment_usage (envs m).now)
        hids' hfind' hform hok
    refine ⟨keyObj', hfind'', ?_⟩
    rw [husage]
    simp only [ApiKey.increment_usage]
    omega

/-- Witness for `C9_serial_increments`: three strictly sequential
accepted submissions against the concrete credential raise its counter
from 7 to 10. -/
theorem C9_serial_increments_witness :
    ∃ keyObj', (serialSubmits cfg0 (fun _ => mkEnv .ok .ok)
        { api_key := "K123".data, form := [("msg".data, "hi".data)], files := [],
          ip := [], user_agent := [] } 3 db0).api_keys.find?
        (fun k => k.key = "K123".data && k.is_active) = some keyObj' ∧
      keyObj'.usage_count = key0.usage_count + 3 :=
  C9_serial_increments cfg0 (fun _ => mkEnv .ok .ok)
    { api_key := "K123".data, form := [("msg".data, "hi".data)], files := [],
      ip := [], user_agent := [] } 3 db0 key0
    (by decide) (by decide) (by decide) (by intro f hf; cases hf)
